import Mathlib

/-!
Shallow embedding of the marketplace-integration service (Go) and proofs
about its sync-job queue, webhook handlers, OAuth callback handling,
Shopee request signing, token redaction and pagination.

Database tables are embedded as Lean lists of rows; GORM/SQL operations
become pure list functions.  Timestamps are integers (seconds), UUIDs are
naturals, and machine ints are Lean Int.  Library calls at the boundary
(HMAC-SHA256) are passed in as function parameters; everything the
repository code itself computes (predicates, orderings, field updates,
hex encoding, string concatenation) is embedded concretely.
-/

/-- Row of marketplace.sync_jobs, from models.SyncJob (src/unnamed/part_003)
with gorm column tags: id, connection_id, job_type, payload, status,
attempts, max_attempts, error_message, scheduled_at, started_at,
completed_at, created_at. -/
structure SyncJob where
  id : Nat
  connectionId : Nat
  jobType : String
  payload : String
  status : String
  attempts : Int
  maxAttempts : Int
  errorMessage : String
  scheduledAt : Int
  startedAt : Option Int
  completedAt : Option Int
  createdAt : Int
deriving Repr, DecidableEq

/-- Job status constant JobStatusPending of package models. -/
def JobStatusPending : String := "pending"

/-- Job status constant JobStatusProcessing of package models. -/
def JobStatusProcessing : String := "processing"

/-- Job status constant JobStatusCompleted of package models. -/
def JobStatusCompleted : String := "completed"

/-- Job status constant JobStatusFailed of package models. -/
def JobStatusFailed : String := "failed"

/-- Filter options for sync jobs, from models.SyncJobFilter. -/
structure SyncJobFilter where
  connectionId : Option Nat
  jobType : String
  status : String
  page : Int
  pageSize : Int
deriving Repr, DecidableEq

/-- Ordering used by ORDER BY scheduled_at ASC. -/
def schedAsc (a b : SyncJob) : Prop := a.scheduledAt ≤ b.scheduledAt

instance : DecidableRel schedAsc := fun a b => Int.decLe a.scheduledAt b.scheduledAt

instance : IsTotal SyncJob schedAsc := ⟨fun a b => Int.le_total a.scheduledAt b.scheduledAt⟩

instance : IsTrans SyncJob schedAsc := ⟨fun _ _ _ h1 h2 => le_trans h1 h2⟩

/-- Ordering used by ORDER BY created_at DESC. -/
def createdDesc (a b : SyncJob) : Prop := b.createdAt ≤ a.createdAt

instance : DecidableRel createdDesc := fun a b => Int.decLe b.createdAt a.createdAt

instance : IsTotal SyncJob createdDesc := ⟨fun a b => (Int.le_total b.createdAt a.createdAt)⟩

instance : IsTrans SyncJob createdDesc := ⟨fun _ _ _ h1 h2 => le_trans h2 h1⟩

namespace repository

/-- Selection predicate of GetPendingJobs:
status = pending AND scheduled_at <= now AND attempts < max_attempts. -/
def pendingPred (now : Int) (j : SyncJob) : Bool :=
  decide (j.status = JobStatusPending ∧ j.scheduledAt ≤ now ∧ j.attempts < j.maxAttempts)

/-- SyncJobRepository.GetPendingJobs of internal/repository/sync_job_repo.go:
pending rows due at `now` with attempts < max_attempts, ordered by
scheduled_at ascending, limited to `limit` rows. -/
def GetPendingJobs (table : List SyncJob) (now : Int) (limit : Nat) : List SyncJob :=
  (((table.filter (pendingPred now)).insertionSort schedAsc).take limit)

/-- Selection predicate of GetFailedJobs:
connection_id = connId AND status = failed AND attempts < max_attempts. -/
def failedPred (connId : Nat) (j : SyncJob) : Bool :=
  decide (j.connectionId = connId ∧ j.status = JobStatusFailed ∧ j.attempts < j.maxAttempts)

/-- SyncJobRepository.GetFailedJobs of internal/repository/sync_job_repo.go. -/
def GetFailedJobs (table : List SyncJob) (connId : Nat) : List SyncJob :=
  ((table.filter (failedPred connId)).insertionSort createdDesc)

/-- SyncJobRepository.Create: INSERT of the given row. -/
def Create (table : List SyncJob) (job : SyncJob) : List SyncJob :=
  table ++ [job]

/-- SyncJobRepository.Update: gorm Save, replacing the row with the same
primary key. -/
def Update (table : List SyncJob) (job : SyncJob) : List SyncJob :=
  table.map fun j => if j.id = job.id then job else j

/-- SyncJobRepository.MarkProcessing: set status=processing, started_at=now,
attempts = attempts + 1 on the row with the given id. -/
def MarkProcessing (table : List SyncJob) (id : Nat) (now : Int) : List SyncJob :=
  table.map fun j =>
    if j.id = id then
      { j with status := JobStatusProcessing, startedAt := some now, attempts := j.attempts + 1 }
    else j

/-- SyncJobRepository.MarkCompleted: set status=completed, completed_at=now
on the row with the given id. -/
def MarkCompleted (table : List SyncJob) (id : Nat) (now : Int) : List SyncJob :=
  table.map fun j =>
    if j.id = id then
      { j with status := JobStatusCompleted, completedAt := some now }
    else j

/-- SyncJobRepository.MarkFailed: set status=failed, error_message=msg on the
row with the given id. -/
def MarkFailed (table : List SyncJob) (id : Nat) (msg : String) : List SyncJob :=
  table.map fun j =>
    if j.id = id then
      { j with status := JobStatusFailed, errorMessage := msg }
    else j

/-- SyncJobRepository.Delete: DELETE the row with the given id. -/
def Delete (table : List SyncJob) (id : Nat) : List SyncJob :=
  table.filter fun j => !(decide (j.id = id))

/-- Deletion predicate of DeleteOldCompleted:
status = completed AND completed_at < cutoff (NULL completed_at never
compares true in SQL). -/
def oldCompletedPred (cutoff : Int) (j : SyncJob) : Bool :=
  decide (j.status = JobStatusCompleted) &&
    (match j.completedAt with
     | some c => decide (c < cutoff)
     | none => false)

/-- SyncJobRepository.DeleteOldCompleted: delete completed rows whose
completed_at is older than `olderThanHours` hours before `now` (seconds). -/
def DeleteOldCompleted (table : List SyncJob) (now : Int) (olderThanHours : Int) : List SyncJob :=
  table.filter fun j => !(oldCompletedPred (now - olderThanHours * 3600) j)

/-- Row-matching predicate of GetByConnectionID: connection_id = connId plus
the optional job_type and status filters (empty string means no filter). -/
def connPred (connId : Nat) (filter : Option SyncJobFilter) (j : SyncJob) : Bool :=
  decide (j.connectionId = connId) &&
    (match filter with
     | none => true
     | some f =>
       (if f.jobType = "" then true else decide (j.jobType = f.jobType)) &&
       (if f.status = "" then true else decide (j.status = f.status)))

/-- Effective page: filter.Page when positive, else 1. -/
def effPage (filter : Option SyncJobFilter) : Int :=
  match filter with
  | none => 1
  | some f => if f.page > 0 then f.page else 1

/-- Effective page size: filter.PageSize when positive, else 20. -/
def effPageSize (filter : Option SyncJobFilter) : Int :=
  match filter with
  | none => 20
  | some f => if f.pageSize > 0 then f.pageSize else 20

/-- SyncJobRepository.GetByConnectionID: count all matching rows, then return
the page at OFFSET (page-1)*pageSize LIMIT pageSize ordered by created_at
descending, together with the total count. -/
def GetByConnectionID (table : List SyncJob) (connId : Nat) (filter : Option SyncJobFilter) :
    List SyncJob × Int :=
  let matching := table.filter (connPred connId filter)
  let total : Int := matching.length
  let offset := (effPage filter - 1) * effPageSize filter
  (((matching.insertionSort createdDesc).drop offset.toNat).take (effPageSize filter).toNat, total)

end repository

namespace domain

/-- Modelled from the spec: the domain package's job status constants are not
under src/ (only their callers in
internal/infrastructure/persistence/imported_product_repo.go are); the spec
fixes the status domain as status ∈ {pending, processing, completed, failed},
matching the models package constants. -/
def JobStatusPending : String := "pending"

/-- Modelled from the spec: the processing element of the status domain. -/
def JobStatusProcessing : String := "processing"

/-- Modelled from the spec: the completed element of the status domain. -/
def JobStatusCompleted : String := "completed"

/-- Modelled from the spec: the failed element of the status domain. -/
def JobStatusFailed : String := "failed"

end domain

namespace persistence

/-- Selection predicate of the persistence copy of GetPendingJobs, from
internal/infrastructure/persistence/imported_product_repo.go. -/
def pendingPred (now : Int) (j : SyncJob) : Bool :=
  decide (j.status = domain.JobStatusPending ∧ j.scheduledAt ≤ now ∧ j.attempts < j.maxAttempts)

/-- SyncJobRepository.GetPendingJobs of
internal/infrastructure/persistence/imported_product_repo.go. -/
def GetPendingJobs (table : List SyncJob) (now : Int) (limit : Nat) : List SyncJob :=
  (((table.filter (pendingPred now)).insertionSort schedAsc).take limit)

/-- Selection predicate of the persistence copy of GetFailedJobs. -/
def failedPred (connId : Nat) (j : SyncJob) : Bool :=
  decide (j.connectionId = connId ∧ j.status = domain.JobStatusFailed ∧ j.attempts < j.maxAttempts)

/-- SyncJobRepository.GetFailedJobs of
internal/infrastructure/persistence/imported_product_repo.go. -/
def GetFailedJobs (table : List SyncJob) (connId : Nat) : List SyncJob :=
  ((table.filter (failedPred connId)).insertionSort createdDesc)

/-- SyncJobRepository.MarkProcessing of the persistence copy. -/
def MarkProcessing (table : List SyncJob) (id : Nat) (now : Int) : List SyncJob :=
  table.map fun j =>
    if j.id = id then
      { j with status := domain.JobStatusProcessing, startedAt := some now,
               attempts := j.attempts + 1 }
    else j

/-- SyncJobRepository.MarkCompleted of the persistence copy. -/
def MarkCompleted (table : List SyncJob) (id : Nat) (now : Int) : List SyncJob :=
  table.map fun j =>
    if j.id = id then
      { j with status := domain.JobStatusCompleted, completedAt := some now }
    else j

/-- SyncJobRepository.MarkFailed of the persistence copy. -/
def MarkFailed (table : List SyncJob) (id : Nat) (msg : String) : List SyncJob :=
  table.map fun j =>
    if j.id = id then
      { j with status := domain.JobStatusFailed, errorMessage := msg }
    else j

/-- Deletion predicate of the persistence copy of DeleteOldCompleted. -/
def oldCompletedPred (cutoff : Int) (j : SyncJob) : Bool :=
  decide (j.status = domain.JobStatusCompleted) &&
    (match j.completedAt with
     | some c => decide (c < cutoff)
     | none => false)

/-- SyncJobRepository.DeleteOldCompleted of the persistence copy. -/
def DeleteOldCompleted (table : List SyncJob) (now : Int) (olderThanHours : Int) : List SyncJob :=
  table.filter fun j => !(oldCompletedPred (now - olderThanHours * 3600) j)

/-- Row-matching predicate of the persistence copy of GetByConnectionID. -/
def connPred (connId : Nat) (filter : Option SyncJobFilter) (j : SyncJob) : Bool :=
  decide (j.connectionId = connId) &&
    (match filter with
     | none => true
     | some f =>
       (if f.jobType = "" then true else decide (j.jobType = f.jobType)) &&
       (if f.status = "" then true else decide (j.status = f.status)))

/-- Effective page of the persistence copy. -/
def effPage (filter : Option SyncJobFilter) : Int :=
  match filter with
  | none => 1
  | some f => if f.page > 0 then f.page else 1

/-- Effective page size of the persistence copy. -/
def effPageSize (filter : Option SyncJobFilter) : Int :=
  match filter with
  | none => 20
  | some f => if f.pageSize > 0 then f.pageSize else 20

/-- SyncJobRepository.GetByConnectionID of the persistence copy. -/
def GetByConnectionID (table : List SyncJob) (connId : Nat) (filter : Option SyncJobFilter) :
    List SyncJob × Int :=
  let matching := table.filter (connPred connId filter)
  let total : Int := matching.length
  let offset := (effPage filter - 1) * effPageSize filter
  (((matching.insertionSort createdDesc).drop offset.toNat).take (effPageSize filter).toNat, total)

end persistence

/-- Lowercase hexadecimal digit alphabet of Go's encoding/hex (its hextable
constant). -/
def hexAlphabet : List Char := "0123456789abcdef".data

/-- Single hex digit for a nibble value. -/
def hexDigit (n : Nat) : Char := hexAlphabet.getD (n % 16) '0'

/-- Go hex.EncodeToString over a byte list: two lowercase hex digits per
byte, high nibble first. -/
def hexEncode (bytes : List Nat) : String :=
  String.mk (bytes.flatMap fun b => [hexDigit ((b % 256) / 16), hexDigit (b % 16)])

/-- Fields json.Unmarshal extracts from a Shopee webhook body. -/
structure ShopeeEvent where
  code : Int
  shopId : Int
  timestamp : Int
  orderSN : String
  orderStatus : String
deriving Repr, DecidableEq

/-- One inbound Shopee webhook request, after the body has been read: the raw
body, the Authorization header, the push_verification_code field ("" when
absent), whether the event shape unmarshals, and the parsed event. -/
structure ShopeeWebhookInput where
  rawBody : String
  authHeader : String
  pushVerificationCode : String
  parseOk : Bool
  event : ShopeeEvent
deriving Repr, DecidableEq

/-- Outcome of the Shopee webhook handler: HTTP status, whether the order
event was dispatched to the order service, and whether an invalid-signature
warning was logged. -/
structure ShopeeOutcome where
  statusCode : Nat
  processed : Bool
  warnedInvalidSignature : Bool
deriving Repr, DecidableEq

/-- WebhookHandler.verifyShopeeSignature (src/unnamed/part_001): false on an
empty signature, otherwise constant-time equality of the header against the
hex-encoded HMAC-SHA256 of the raw body under the Shopee partner key.  The
HMAC-SHA256 library primitive is a parameter returning raw bytes. -/
def verifyShopeeSignature (hmacBytes : String → String → List Nat)
    (shopeeKey : String) (body sig : String) : Bool :=
  if sig = "" then false
  else decide (hexEncode (hmacBytes shopeeKey body) = sig)

/-- WebhookHandler.HandleShopeeWebhook (src/unnamed/part_001).  Test pushes
echo the verification code; an invalid signature only logs a warning (the
source comment reads: do not reject, just log warning for now); parse
failures still acknowledge with 200; a nonempty ordersn dispatches the order
event. -/
def HandleShopeeWebhook (hmacBytes : String → String → List Nat)
    (shopeeKey : String) (input : ShopeeWebhookInput) : ShopeeOutcome :=
  if input.pushVerificationCode ≠ "" then
    { statusCode := 200, processed := false, warnedInvalidSignature := false }
  else
    let warned : Bool :=
      decide (shopeeKey ≠ "" ∧ input.authHeader ≠ "" ∧
        verifyShopeeSignature hmacBytes shopeeKey input.rawBody input.authHeader = false)
    if input.parseOk then
      if input.event.orderSN ≠ "" then
        { statusCode := 200, processed := true, warnedInvalidSignature := warned }
      else
        { statusCode := 200, processed := false, warnedInvalidSignature := warned }
    else
      { statusCode := 200, processed := false, warnedInvalidSignature := warned }

/-- Fields json.Unmarshal extracts from a TikTok webhook body. -/
structure TikTokEvent where
  type : String
  shopId : String
  timestamp : Int
  orderId : String
  orderStatus : Int
deriving Repr, DecidableEq

/-- One inbound TikTok webhook request after the body has been read. -/
structure TikTokWebhookInput where
  rawBody : String
  sigHeader : String
  parseOk : Bool
  event : TikTokEvent
deriving Repr, DecidableEq

/-- Outcome of the TikTok webhook handler. -/
structure TikTokOutcome where
  statusCode : Nat
  processed : Bool
deriving Repr, DecidableEq

/-- WebhookHandler.verifyTikTokSignature (src/unnamed/part_001). -/
def verifyTikTokSignature (hmacBytes : String → String → List Nat)
    (secret : String) (body sig : String) : Bool :=
  if sig = "" then false
  else decide (hexEncode (hmacBytes secret body) = sig)

/-- WebhookHandler.HandleTikTokWebhook (src/unnamed/part_001): with a
configured secret, an invalid X-Tts-Signature is rejected with 401 and the
event is not processed; parse failures get 400; an ORDER_STATUS_CHANGE event
with a nonempty order id is dispatched. -/
def HandleTikTokWebhook (hmacBytes : String → String → List Nat)
    (tiktokSecret : String) (input : TikTokWebhookInput) : TikTokOutcome :=
  if tiktokSecret ≠ "" ∧
      verifyTikTokSignature hmacBytes tiktokSecret input.rawBody input.sigHeader = false then
    { statusCode := 401, processed := false }
  else if input.parseOk then
    if input.event.type = "ORDER_STATUS_CHANGE" ∧ input.event.orderId ≠ "" then
      { statusCode := 200, processed := true }
    else
      { statusCode := 200, processed := false }
  else
    { statusCode := 400, processed := false }

/-- Shopee API client fields used in signing, from
internal/providers/shopee/client.go. -/
structure ShopeeClient where
  partnerId : Int
  partnerKey : String
  accessToken : String
  shopId : Int
deriving Repr, DecidableEq

/-- Client.generateSign: hex(HMAC-SHA256(partner_key,
sprintf %d%s%d of partner_id, path, timestamp)). -/
def generateSign (hmacBytes : String → String → List Nat)
    (c : ShopeeClient) (path : String) (timestamp : Int) : String :=
  hexEncode (hmacBytes c.partnerKey (toString c.partnerId ++ path ++ toString timestamp))

/-- Client.generateSignWithTokens: hex(HMAC-SHA256(partner_key,
sprintf %d%s%d%s%d of partner_id, path, timestamp, access_token, shop_id)). -/
def generateSignWithTokens (hmacBytes : String → String → List Nat)
    (c : ShopeeClient) (path : String) (timestamp : Int)
    (accessToken : String) (shopId : Int) : String :=
  hexEncode (hmacBytes c.partnerKey
    (toString c.partnerId ++ path ++ toString timestamp ++ accessToken ++ toString shopId))

/-- Row of marketplace.connections, from models.Connection
(src/internal/domain/connection.go). -/
structure Connection where
  id : Nat
  platform : String
  shopId : String
  shopName : String
  accessToken : String
  refreshToken : String
  tokenExpiresAt : Option Int
  isActive : Bool
  settings : String
  createdAt : Int
  updatedAt : Int
deriving Repr, DecidableEq

/-- ConnectionResponse, the connection view without sensitive data
(src/internal/domain/connection.go). -/
structure ConnectionResponse where
  id : Nat
  platform : String
  shopId : String
  shopName : String
  tokenExpiresAt : Option Int
  isActive : Bool
  settings : String
  createdAt : Int
  updatedAt : Int
deriving Repr, DecidableEq

/-- Connection.ToResponse (src/internal/domain/connection.go): copies every
field except AccessToken and RefreshToken. -/
def Connection.toResponse (c : Connection) : ConnectionResponse :=
  { id := c.id
    platform := c.platform
    shopId := c.shopId
    shopName := c.shopName
    tokenExpiresAt := c.tokenExpiresAt
    isActive := c.isActive
    settings := c.settings
    createdAt := c.createdAt
    updatedAt := c.updatedAt }

/-- Platform-and-shop key of a connection row. -/
def connKey (c : Connection) : String × String := (c.platform, c.shopId)

/-- ConnectionRepository.GetByPlatformAndShopID
(src/internal/repository/connection_repo.go): first row with
platform = p AND shop_id = s. -/
def GetByPlatformAndShopID (table : List Connection) (p s : String) : Option Connection :=
  table.find? fun c => decide (c.platform = p ∧ c.shopId = s)

/-- ConnectionRepository.Update: gorm Save, replacing the row with the same
primary key. -/
def ConnUpdate (table : List Connection) (c : Connection) : List Connection :=
  table.map fun x => if x.id = c.id then c else x

/-- ConnectionRepository.Create: INSERT of the given row. -/
def ConnCreate (table : List Connection) (c : Connection) : List Connection :=
  table ++ [c]

/-- Token response of the Shopee code exchange, as consumed by
ConnectionService.HandleShopeeCallback (src/unnamed/part_000): tokens
(after optional encryption), expiry, and the shop id rendered as a string. -/
structure ShopeeTokenResp where
  accessToken : String
  refreshToken : String
  expiresAt : Int
  shopId : String
deriving Repr, DecidableEq

/-- ConnectionService.HandleShopeeCallback (src/unnamed/part_000), from the
point where tokens are in hand: look up the ("shopee", shop_id) connection;
when it exists, update its tokens, expiry and IsActive=true in place and
return it; otherwise create one new connection.  newId stands for the UUID
the database generates for the insert; shopName is the fetched shop name. -/
def HandleShopeeCallback (table : List Connection) (tok : ShopeeTokenResp)
    (shopName : String) (newId : Nat) : List Connection × Connection :=
  match GetByPlatformAndShopID table "shopee" tok.shopId with
  | some existing =>
    let upd := { existing with
      accessToken := tok.accessToken
      refreshToken := tok.refreshToken
      tokenExpiresAt := some tok.expiresAt
      isActive := true }
    (ConnUpdate table upd, upd)
  | none =>
    let c : Connection :=
      { id := newId
        platform := "shopee"
        shopId := tok.shopId
        shopName := shopName
        accessToken := tok.accessToken
        refreshToken := tok.refreshToken
        tokenExpiresAt := some tok.expiresAt
        isActive := true
        settings := ""
        createdAt := 0
        updatedAt := 0 }
    (ConnCreate table c, c)

/-- Token response of the TikTok code exchange, as consumed by
ConnectionService.HandleTikTokCallback (src/unnamed/part_000). -/
structure TikTokTokenResp where
  accessToken : String
  refreshToken : String
  expiresAt : Int
  shopId : String
  shopName : String
deriving Repr, DecidableEq

/-- ConnectionService.HandleTikTokCallback (src/unnamed/part_000): same shape
as the Shopee callback, except the update path also refreshes ShopName. -/
def HandleTikTokCallback (table : List Connection) (tok : TikTokTokenResp)
    (newId : Nat) : List Connection × Connection :=
  match GetByPlatformAndShopID table "tiktok" tok.shopId with
  | some existing =>
    let upd := { existing with
      accessToken := tok.accessToken
      refreshToken := tok.refreshToken
      tokenExpiresAt := some tok.expiresAt
      shopName := tok.shopName
      isActive := true }
    (ConnUpdate table upd, upd)
  | none =>
    let c : Connection :=
      { id := newId
        platform := "tiktok"
        shopId := tok.shopId
        shopName := tok.shopName
        accessToken := tok.accessToken
        refreshToken := tok.refreshToken
        tokenExpiresAt := some tok.expiresAt
        isActive := true
        settings := ""
        createdAt := 0
        updatedAt := 0 }
    (ConnCreate table c, c)

/-- Row of marketplace.product_mappings, from domain.ProductMapping
(src/internal/domain/product_mapping.go). -/
structure ProductMapping where
  id : Nat
  connectionId : Nat
  internalProductId : Nat
  externalProductId : String
  externalSKU : String
  syncStatus : String
  lastSyncedAt : Option Int
  syncError : String
  createdAt : Int
  updatedAt : Int
deriving Repr, DecidableEq

/-- Filter options for product mappings, from domain.ProductMappingFilter. -/
structure ProductMappingFilter where
  connectionId : Option Nat
  internalProductId : Option Nat
  syncStatus : String
  page : Int
  pageSize : Int
deriving Repr, DecidableEq

/-- Ordering used by ORDER BY created_at DESC on product mappings. -/
def pmCreatedDesc (a b : ProductMapping) : Prop := b.createdAt ≤ a.createdAt

instance : DecidableRel pmCreatedDesc := fun a b => Int.decLe b.createdAt a.createdAt

instance : IsTotal ProductMapping pmCreatedDesc :=
  ⟨fun a b => (Int.le_total b.createdAt a.createdAt)⟩

instance : IsTrans ProductMapping pmCreatedDesc := ⟨fun _ _ _ h1 h2 => le_trans h2 h1⟩

namespace mappingRepo

/-- Row-matching predicate of ProductMappingRepository.GetByConnectionID
(src/unnamed/part_002): connection_id = connId plus the optional sync_status
and internal_product_id filters. -/
def connPred (connId : Nat) (filter : Option ProductMappingFilter) (m : ProductMapping) : Bool :=
  decide (m.connectionId = connId) &&
    (match filter with
     | none => true
     | some f =>
       (if f.syncStatus = "" then true else decide (m.syncStatus = f.syncStatus)) &&
       (match f.internalProductId with
        | none => true
        | some pid => decide (m.internalProductId = pid)))

/-- Effective page of ProductMappingRepository.GetByConnectionID. -/
def effPage (filter : Option ProductMappingFilter) : Int :=
  match filter with
  | none => 1
  | some f => if f.page > 0 then f.page else 1

/-- Effective page size of ProductMappingRepository.GetByConnectionID. -/
def effPageSize (filter : Option ProductMappingFilter) : Int :=
  match filter with
  | none => 20
  | some f => if f.pageSize > 0 then f.pageSize else 20

/-- ProductMappingRepository.GetByConnectionID (src/unnamed/part_002): count
all matching rows, then return the page at OFFSET (page-1)*pageSize LIMIT
pageSize ordered by created_at descending, with the total count. -/
def GetByConnectionID (table : List ProductMapping) (connId : Nat)
    (filter : Option ProductMappingFilter) : List ProductMapping × Int :=
  let matching := table.filter (connPred connId filter)
  let total : Int := matching.length
  let offset := (effPage filter - 1) * effPageSize filter
  (((matching.insertionSort pmCreatedDesc).drop offset.toNat).take (effPageSize filter).toNat,
    total)

end mappingRepo

/-- Default row used as the out-of-range fallback of List.getD. -/
def dummyJob : SyncJob :=
  { id := 0, connectionId := 0, jobType := "", payload := "", status := JobStatusPending,
    attempts := 0, maxAttempts := 3, errorMessage := "", scheduledAt := 0,
    startedAt := none, completedAt := none, createdAt := 0 }

/-- Closed status domain of the spec: the four models-package constants. -/
def validStatus (st : String) : Prop :=
  st = JobStatusPending ∨ st = JobStatusProcessing ∨ st = JobStatusCompleted ∨
    st = JobStatusFailed

/-- Sync-job table states reachable by poll cycles: starting empty, jobs are
created with attempts = 0 and a fresh id (the database generates the primary
key; gorm defaults attempts to 0 and max_attempts to 3), MarkProcessing runs
exactly once per job id selected by GetPendingJobs or GetFailedJobs, and
completion, failure and deletion may happen at any time. -/
inductive Reach : List SyncJob → Prop where
  | init : Reach []
  | create (s : List SyncJob) (job : SyncJob) (h : Reach s)
      (hid : job.id ∉ s.map SyncJob.id) (ha : job.attempts = 0)
      (hm : 0 ≤ job.maxAttempts) : Reach (repository.Create s job)
  | markProcessing (s : List SyncJob) (id : Nat) (now t : Int) (n : Nat) (h : Reach s)
      (hsel : id ∈ (repository.GetPendingJobs s t n).map SyncJob.id ∨
        ∃ c, id ∈ (repository.GetFailedJobs s c).map SyncJob.id) :
      Reach (repository.MarkProcessing s id now)
  | markCompleted (s : List SyncJob) (id : Nat) (now : Int) (h : Reach s) :
      Reach (repository.MarkCompleted s id now)
  | markFailed (s : List SyncJob) (id : Nat) (msg : String) (h : Reach s) :
      Reach (repository.MarkFailed s id msg)
  | del (s : List SyncJob) (id : Nat) (h : Reach s) : Reach (repository.Delete s id)
  | deleteOld (s : List SyncJob) (now hrs : Int) (h : Reach s) :
      Reach (repository.DeleteOldCompleted s now hrs)

/-- Concrete sync job used to instantiate the retry-bound theorem. -/
def c2job : SyncJob :=
  { id := 1, connectionId := 2, jobType := "product_push", payload := "",
    status := JobStatusPending, attempts := 0, maxAttempts := 3, errorMessage := "",
    scheduledAt := 0, startedAt := none, completedAt := none, createdAt := 0 }

/-- Concrete stand-in for the HMAC-SHA256 primitive, for counterexamples and
witnesses: a constant one-byte digest. -/
def c3Hmac : String → String → List Nat := fun _ _ => [0]

/-- Concrete parsed Shopee order event. -/
def c3ShopeeEvent : ShopeeEvent :=
  { code := 0, shopId := 7, timestamp := 0, orderSN := "SN1", orderStatus := "READY" }

/-- Concrete Shopee webhook request whose Authorization header does not match
the HMAC of the body. -/
def c3ShopeeInput : ShopeeWebhookInput :=
  { rawBody := "body", authHeader := "deadbeef", pushVerificationCode := "",
    parseOk := true, event := c3ShopeeEvent }

/-- Concrete TikTok webhook request with a bad signature header. -/
def c3TikTokInput : TikTokWebhookInput :=
  { rawBody := "body", sigHeader := "bad", parseOk := true,
    event := { type := "ORDER_STATUS_CHANGE", shopId := "7", timestamp := 0,
               orderId := "9", orderStatus := 1 } }

/-- Concrete Shopee token response for the OAuth-callback witness. -/
def c7ShopeeTok : ShopeeTokenResp :=
  { accessToken := "at", refreshToken := "rt", expiresAt := 100, shopId := "77" }

/-- Concrete TikTok token response for the OAuth-callback witness. -/
def c7TikTokTok : TikTokTokenResp :=
  { accessToken := "at", refreshToken := "rt", expiresAt := 100, shopId := "88",
    shopName := "Tik Shop" }

/-! ## Helper lemmas -/

lemma pendingJobs_mem {table : List SyncJob} {now : Int} {n : Nat} {j : SyncJob}
    (h : j ∈ repository.GetPendingJobs table now n) :
    j ∈ table ∧ j.status = JobStatusPending ∧ j.scheduledAt ≤ now ∧
      j.attempts < j.maxAttempts := by
  have h1 : j ∈ (table.filter (repository.pendingPred now)).insertionSort schedAsc :=
    List.mem_of_mem_take h
  have h2 : j ∈ table.filter (repository.pendingPred now) :=
    (List.mem_insertionSort schedAsc).mp h1
  have h3 := List.of_mem_filter h2
  have h4 := List.mem_of_mem_filter h2
  refine ⟨h4, of_decide_eq_true (by simpa [repository.pendingPred] using h3)⟩

lemma failedJobs_mem {table : List SyncJob} {connId : Nat} {j : SyncJob}
    (h : j ∈ repository.GetFailedJobs table connId) :
    j ∈ table ∧ j.connectionId = connId ∧ j.status = JobStatusFailed ∧
      j.attempts < j.maxAttempts := by
  have h2 : j ∈ table.filter (repository.failedPred connId) :=
    (List.mem_insertionSort createdDesc).mp h
  have h3 := List.of_mem_filter h2
  have h4 := List.mem_of_mem_filter h2
  refine ⟨h4, of_decide_eq_true (by simpa [repository.failedPred] using h3)⟩

/-! ## C1 -/

/-- C1: GetPendingJobs returns only jobs with status pending, scheduled_at at
or before the current time, and attempts below max_attempts; the result is
ordered by scheduled_at ascending and holds at most `n` jobs. -/
theorem getPendingJobs_selection (table : List SyncJob) (now : Int) (n : Nat) :
    (∀ j ∈ repository.GetPendingJobs table now n,
      j.status = JobStatusPending ∧ j.scheduledAt ≤ now ∧ j.attempts < j.maxAttempts) ∧
    (repository.GetPendingJobs table now n).Pairwise schedAsc ∧
    (repository.GetPendingJobs table now n).length ≤ n := by
  refine ⟨fun j hj => (pendingJobs_mem hj).2, ?_, List.length_take_le n _⟩
  exact (List.sorted_insertionSort schedAsc _).sublist (List.take_sublist _ _)

lemma hexDigit_mem (n : Nat) : hexDigit n ∈ hexAlphabet := by
  have hlt : n % 16 < hexAlphabet.length := by
    have : (16 : Nat) ≤ hexAlphabet.length := by decide
    omega
  rw [hexDigit, List.getD_eq_getElem hexAlphabet _ hlt]
  exact List.getElem_mem hlt

lemma hexEncode_chars (bs : List Nat) : ∀ ch ∈ (hexEncode bs).data, ch ∈ hexAlphabet := by
  intro ch hch
  have : ch ∈ bs.flatMap fun b => [hexDigit ((b % 256) / 16), hexDigit (b % 16)] := hch
  rcases List.mem_flatMap.mp this with ⟨b, _, hc⟩
  rcases List.mem_cons.mp hc with h | h
  · rw [h]; exact hexDigit_mem _
  · rcases List.mem_cons.mp h with h2 | h2
    · rw [h2]; exact hexDigit_mem _
    · cases h2

/-! ## C6 -/

/-- C6: the unauthenticated Shopee signature is the hex encoding of the HMAC
keyed by partner_key over decimal(partner_id) ++ path ++ decimal(timestamp);
the authenticated signature additionally appends access_token and
decimal(shop_id); both render entirely in the lowercase hex alphabet. -/
theorem shopee_sign_spec (hmacBytes : String → String → List Nat) (c : ShopeeClient)
    (path : String) (ts : Int) (accessToken : String) (shopId : Int) :
    generateSign hmacBytes c path ts
        = hexEncode (hmacBytes c.partnerKey (toString c.partnerId ++ path ++ toString ts)) ∧
    generateSignWithTokens hmacBytes c path ts accessToken shopId
        = hexEncode (hmacBytes c.partnerKey
            (toString c.partnerId ++ path ++ toString ts ++ accessToken ++ toString shopId)) ∧
    (∀ ch ∈ (generateSign hmacBytes c path ts).data, ch ∈ hexAlphabet) ∧
    (∀ ch ∈ (generateSignWithTokens hmacBytes c path ts accessToken shopId).data,
      ch ∈ hexAlphabet) := by
  refine ⟨rfl, rfl, fun ch hch => hexEncode_chars _ ch hch, fun ch hch => hexEncode_chars _ ch hch⟩

/-! ## C8 -/

/-- C8: ToResponse is independent of the stored token secrets: overwriting
AccessToken and RefreshToken with any values leaves the response unchanged,
and the response type carries no token field at all. -/
theorem toResponse_token_noninterference (c : Connection) (t1 t2 : String) :
    ({ c with accessToken := t1, refreshToken := t2 } : Connection).toResponse
      = c.toResponse := rfl

/-! ## C9 -/

/-- C9: the sync-job repository in internal/repository and its copy in
internal/infrastructure/persistence agree on every operation: the same
selection predicates, orderings, pagination, field updates and deletions,
hence identical results and successor states on every input. -/
theorem syncJobRepos_equivalent :
    (∀ (table : List SyncJob) (now : Int) (limit : Nat),
      repository.GetPendingJobs table now limit = persistence.GetPendingJobs table now limit) ∧
    (∀ (table : List SyncJob) (connId : Nat),
      repository.GetFailedJobs table connId = persistence.GetFailedJobs table connId) ∧
    (∀ (table : List SyncJob) (connId : Nat) (filter : Option SyncJobFilter),
      repository.GetByConnectionID table connId filter
        = persistence.GetByConnectionID table connId filter) ∧
    (∀ (table : List SyncJob) (id : Nat) (now : Int),
      repository.MarkProcessing table id now = persistence.MarkProcessing table id now) ∧
    (∀ (table : List SyncJob) (id : Nat) (now : Int),
      repository.MarkCompleted table id now = persistence.MarkCompleted table id now) ∧
    (∀ (table : List SyncJob) (id : Nat) (msg : String),
      repository.MarkFailed table id msg = persistence.MarkFailed table id msg) ∧
    (∀ (table : List SyncJob) (now olderThanHours : Int),
      repository.DeleteOldCompleted table now olderThanHours
        = persistence.DeleteOldCompleted table now olderThanHours) :=
  ⟨fun _ _ _ => rfl, fun _ _ => rfl, fun _ _ _ => rfl, fun _ _ _ => rfl,
   fun _ _ _ => rfl, fun _ _ _ => rfl, fun _ _ _ => rfl⟩

/-! ## C5 -/

lemma getD_map_of_lt {α β : Type} (f : α → β) (s : List α) (i : Nat) (d : α) (d2 : β)
    (h : i < s.length) : (s.map f).getD i d2 = f (s.getD i d) := by
  induction s generalizing i with
  | nil => simp at h
  | cons a l ih =>
    cases i with
    | zero => simp
    | succ k =>
      simp only [List.map_cons, List.getD_cons_succ]
      exact ih k (by simpa using h)

lemma markFailed_getD (s : List SyncJob) (id : Nat) (msg : String) (i : Nat)
    (h : i < s.length) :
    (repository.MarkFailed s id msg).getD i dummyJob =
      (if (s.getD i dummyJob).id = id then
        { s.getD i dummyJob with status := JobStatusFailed, errorMessage := msg }
      else s.getD i dummyJob) := by
  have := getD_map_of_lt
    (fun j => if j.id = id then { j with status := JobStatusFailed, errorMessage := msg } else j)
    s i dummyJob dummyJob h
  simpa [repository.MarkFailed] using this

/-- C5: MarkFailed modifies only the status (to failed) and error_message of
the row with the given id: the table keeps its length, every other field of
that row — in particular scheduled_at, attempts and max_attempts — keeps its
value, and every row with a different id is untouched, so no retry delay or
backoff is ever added to a failed job. -/
theorem markFailed_frame (s : List SyncJob) (id : Nat) (msg : String) :
    (repository.MarkFailed s id msg).length = s.length ∧
    (∀ i : Nat, i < s.length →
      ((repository.MarkFailed s id msg).getD i dummyJob).id = (s.getD i dummyJob).id ∧
      ((repository.MarkFailed s id msg).getD i dummyJob).connectionId
        = (s.getD i dummyJob).connectionId ∧
      ((repository.MarkFailed s id msg).getD i dummyJob).jobType = (s.getD i dummyJob).jobType ∧
      ((repository.MarkFailed s id msg).getD i dummyJob).payload = (s.getD i dummyJob).payload ∧
      ((repository.MarkFailed s id msg).getD i dummyJob).attempts
        = (s.getD i dummyJob).attempts ∧
      ((repository.MarkFailed s id msg).getD i dummyJob).maxAttempts
        = (s.getD i dummyJob).maxAttempts ∧
      ((repository.MarkFailed s id msg).getD i dummyJob).scheduledAt
        = (s.getD i dummyJob).scheduledAt ∧
      ((repository.MarkFailed s id msg).getD i dummyJob).startedAt
        = (s.getD i dummyJob).startedAt ∧
      ((repository.MarkFailed s id msg).getD i dummyJob).completedAt
        = (s.getD i dummyJob).completedAt ∧
      ((repository.MarkFailed s id msg).getD i dummyJob).createdAt
        = (s.getD i dummyJob).createdAt ∧
      ((s.getD i dummyJob).id = id →
        ((repository.MarkFailed s id msg).getD i dummyJob).status = JobStatusFailed ∧
        ((repository.MarkFailed s id msg).getD i dummyJob).errorMessage = msg) ∧
      ((s.getD i dummyJob).id ≠ id →
        (repository.MarkFailed s id msg).getD i dummyJob = s.getD i dummyJob)) := by
  constructor
  · simp [repository.MarkFailed]
  · intro i hi
    rw [markFailed_getD s id msg i hi]
    by_cases h : (s.getD i dummyJob).id = id
    · rw [if_pos h]
      exact ⟨rfl, rfl, rfl, rfl, rfl, rfl, rfl, rfl, rfl, rfl,
        fun _ => ⟨rfl, rfl⟩, fun hne => absurd h hne⟩
    · rw [if_neg h]
      exact ⟨rfl, rfl, rfl, rfl, rfl, rfl, rfl, rfl, rfl, rfl,
        fun he => absurd he h, fun _ => rfl⟩

/-! ## C10 -/

/-- C10: listings by connection paginate uniformly: a nil filter or a
non-positive Page or PageSize falls back to page 1 and page size 20; the
returned rows are exactly the window that skips (page-1)*pageSize matching
rows and holds at most pageSize of them; and the returned total counts every
matching row, unaffected by the Page and PageSize fields — for sync jobs and
for product mappings alike. -/
theorem pagination_defaults_bound (jobs : List SyncJob) (connId : Nat)
    (filter : Option SyncJobFilter) (mappings : List ProductMapping) (mconnId : Nat)
    (mfilter : Option ProductMappingFilter) :
    (repository.effPage none = 1 ∧ repository.effPageSize none = 20 ∧
     (∀ f : SyncJobFilter, f.page ≤ 0 → repository.effPage (some f) = 1) ∧
     (∀ f : SyncJobFilter, f.pageSize ≤ 0 → repository.effPageSize (some f) = 20) ∧
     (repository.GetByConnectionID jobs connId filter).1.length
       ≤ (repository.effPageSize filter).toNat ∧
     (repository.GetByConnectionID jobs connId filter).1
       = (((jobs.filter (repository.connPred connId filter)).insertionSort
            createdDesc).drop
          ((repository.effPage filter - 1) * repository.effPageSize filter).toNat).take
          (repository.effPageSize filter).toNat ∧
     (repository.GetByConnectionID jobs connId filter).2
       = ((jobs.filter (repository.connPred connId filter)).length : Int) ∧
     (∀ (f : SyncJobFilter) (a b : Int),
       (repository.GetByConnectionID jobs connId (some f)).2
         = (repository.GetByConnectionID jobs connId
             (some { f with page := a, pageSize := b })).2)) ∧
    (mappingRepo.effPage none = 1 ∧ mappingRepo.effPageSize none = 20 ∧
     (∀ f : ProductMappingFilter, f.page ≤ 0 → mappingRepo.effPage (some f) = 1) ∧
     (∀ f : ProductMappingFilter, f.pageSize ≤ 0 → mappingRepo.effPageSize (some f) = 20) ∧
     (mappingRepo.GetByConnectionID mappings mconnId mfilter).1.length
       ≤ (mappingRepo.effPageSize mfilter).toNat ∧
     (mappingRepo.GetByConnectionID mappings mconnId mfilter).1
       = (((mappings.filter (mappingRepo.connPred mconnId mfilter)).insertionSort
            pmCreatedDesc).drop
          ((mappingRepo.effPage mfilter - 1) * mappingRepo.effPageSize mfilter).toNat).take
          (mappingRepo.effPageSize mfilter).toNat ∧
     (mappingRepo.GetByConnectionID mappings mconnId mfilter).2
       = ((mappings.filter (mappingRepo.connPred mconnId mfilter)).length : Int) ∧
     (∀ (f : ProductMappingFilter) (a b : Int),
       (mappingRepo.GetByConnectionID mappings mconnId (some f)).2
         = (mappingRepo.GetByConnectionID mappings mconnId
             (some { f with page := a, pageSize := b })).2)) := by
  refine ⟨⟨rfl, rfl, ?_, ?_, ?_, rfl, rfl, fun f a b => rfl⟩,
          ⟨rfl, rfl, ?_, ?_, ?_, rfl, rfl, fun f a b => rfl⟩⟩
  · intro f hf
    simp only [repository.effPage]
    rw [if_neg (by omega)]
  · intro f hf
    simp only [repository.effPageSize]
    rw [if_neg (by omega)]
  · exact List.length_take_le _ _
  · intro f hf
    simp only [mappingRepo.effPage]
    rw [if_neg (by omega)]
  · intro f hf
    simp only [mappingRepo.effPageSize]
    rw [if_neg (by omega)]
  · exact List.length_take_le _ _

/-! ## C4 -/

/-- C4: the job status domain is closed: creation defaults the status to
pending, and every status a repository operation writes — MarkProcessing,
MarkCompleted, MarkFailed, or Update with a validly-statused row — stays in
the four-element set {pending, processing, completed, failed}. -/
theorem jobStatus_domain_closed (s : List SyncJob) (id : Nat) (now : Int) (msg : String)
    (job : SyncJob) (hs : ∀ j ∈ s, validStatus j.status) (hjob : validStatus job.status) :
    validStatus JobStatusPending ∧
    (∀ j ∈ repository.Create s { job with status := JobStatusPending }, validStatus j.status) ∧
    (∀ j ∈ repository.Update s job, validStatus j.status) ∧
    (∀ j ∈ repository.MarkProcessing s id now, validStatus j.status) ∧
    (∀ j ∈ repository.MarkCompleted s id now, validStatus j.status) ∧
    (∀ j ∈ repository.MarkFailed s id msg, validStatus j.status) := by
  refine ⟨Or.inl rfl, ?_, ?_, ?_, ?_, ?_⟩
  · intro j hj
    rcases List.mem_append.mp hj with h | h
    · exact hs j h
    · rw [List.mem_singleton.mp h]
      exact Or.inl rfl
  · intro j hj
    rcases List.mem_map.mp hj with ⟨j0, hj0, rfl⟩
    by_cases h : j0.id = job.id
    · rw [if_pos h]; exact hjob
    · rw [if_neg h]; exact hs j0 hj0
  · intro j hj
    rcases List.mem_map.mp hj with ⟨j0, hj0, rfl⟩
    by_cases h : j0.id = id
    · rw [if_pos h]; exact Or.inr (Or.inl rfl)
    · rw [if_neg h]; exact hs j0 hj0
  · intro j hj
    rcases List.mem_map.mp hj with ⟨j0, hj0, rfl⟩
    by_cases h : j0.id = id
    · rw [if_pos h]; exact Or.inr (Or.inr (Or.inl rfl))
    · rw [if_neg h]; exact hs j0 hj0
  · intro j hj
    rcases List.mem_map.mp hj with ⟨j0, hj0, rfl⟩
    by_cases h : j0.id = id
    · rw [if_pos h]; exact Or.inr (Or.inr (Or.inr rfl))
    · rw [if_neg h]; exact hs j0 hj0

/-- C4 witness: the theorem applied to the empty table and a concrete job. -/
theorem jobStatus_domain_closed_witness : validStatus JobStatusPending :=
  (jobStatus_domain_closed [] 0 0 "" dummyJob (by simp) (Or.inl rfl)).1

/-! ## C3 -/

/-- C3 counterexample: with the Shopee partner key configured and an
Authorization header that differs from the hex HMAC of the body, the Shopee
webhook handler still answers 200 and still dispatches the order event; it
only logs a warning. -/
theorem shopeeWebhook_processes_invalid_signature :
    ("k" : String) ≠ "" ∧
    c3ShopeeInput.authHeader ≠ hexEncode (c3Hmac "k" c3ShopeeInput.rawBody) ∧
    HandleShopeeWebhook c3Hmac "k" c3ShopeeInput
      = { statusCode := 200, processed := true, warnedInvalidSignature := true } := by
  refine ⟨by decide, by decide, by decide⟩

/-- C3 amended: only the TikTok webhook handler enforces the signature — with
a configured secret and a header that does not equal the hex HMAC of the
body, it answers 401 and does not process the event — while the Shopee
handler accepts and processes order events regardless of the signature
check. -/
theorem webhook_signature_enforcement (hmacBytes : String → String → List Nat)
    (secret : String) (tin : TikTokWebhookInput)
    (hsec : secret ≠ "")
    (hbad : tin.sigHeader ≠ hexEncode (hmacBytes secret tin.rawBody)) :
    HandleTikTokWebhook hmacBytes secret tin = { statusCode := 401, processed := false } ∧
    (∀ (key : String) (sin : ShopeeWebhookInput),
      sin.pushVerificationCode = "" → sin.parseOk = true → sin.event.orderSN ≠ "" →
      (HandleShopeeWebhook hmacBytes key sin).statusCode = 200 ∧
      (HandleShopeeWebhook hmacBytes key sin).processed = true) := by
  constructor
  · have hv : verifyTikTokSignature hmacBytes secret tin.rawBody tin.sigHeader = false := by
      unfold verifyTikTokSignature
      by_cases h0 : tin.sigHeader = ""
      · rw [if_pos h0]
      · rw [if_neg h0]
        exact decide_eq_false fun he => hbad he.symm
    unfold HandleTikTokWebhook
    rw [if_pos ⟨hsec, hv⟩]
  · intro key sin h1 h2 h3
    constructor <;> simp [HandleShopeeWebhook, h1, h2, h3]

/-- C3 witness: the amended theorem at a concrete bad-signature TikTok
request. -/
theorem webhook_signature_enforcement_witness :
    HandleTikTokWebhook c3Hmac "s" c3TikTokInput
      = { statusCode := 401, processed := false } :=
  (webhook_signature_enforcement c3Hmac "s" c3TikTokInput (by decide) (by decide)).1

/-! ## C2 -/

lemma mapId_of_preserve (s : List SyncJob) (f : SyncJob → SyncJob)
    (hf : ∀ j, (f j).id = j.id) : (s.map f).map SyncJob.id = s.map SyncJob.id := by
  rw [List.map_map]
  exact List.map_congr_left fun j _ => hf j

lemma mapId_markProcessing (s : List SyncJob) (id : Nat) (now : Int) :
    (repository.MarkProcessing s id now).map SyncJob.id = s.map SyncJob.id :=
  mapId_of_preserve s _ fun j => by by_cases h : j.id = id <;> simp [h]

lemma mapId_markCompleted (s : List SyncJob) (id : Nat) (now : Int) :
    (repository.MarkCompleted s id now).map SyncJob.id = s.map SyncJob.id :=
  mapId_of_preserve s _ fun j => by by_cases h : j.id = id <;> simp [h]

lemma mapId_markFailed (s : List SyncJob) (id : Nat) (msg : String) :
    (repository.MarkFailed s id msg).map SyncJob.id = s.map SyncJob.id :=
  mapId_of_preserve s _ fun j => by by_cases h : j.id = id <;> simp [h]

lemma reach_invariant {s : List SyncJob} (h : Reach s) :
    (s.map SyncJob.id).Nodup ∧ ∀ j ∈ s, j.attempts ≤ j.maxAttempts := by
  induction h with
  | init => exact ⟨List.nodup_nil, by simp⟩
  | create s job hr hid ha hm ih =>
    refine ⟨?_, ?_⟩
    · unfold repository.Create
      rw [List.map_append]
      exact List.Nodup.append ih.1 (List.nodup_singleton _)
        (by simpa [List.disjoint_singleton] using hid)
    · intro j hj
      rcases List.mem_append.mp hj with h1 | h1
      · exact ih.2 j h1
      · rw [List.mem_singleton.mp h1, ha]
        exact hm
  | markProcessing s id now t n hr hsel ih =>
    refine ⟨by rw [mapId_markProcessing]; exact ih.1, ?_⟩
    have hex : ∃ jj, jj ∈ s ∧ jj.id = id ∧ jj.attempts < jj.maxAttempts := by
      rcases hsel with hp | ⟨c, hf⟩
      · rcases List.mem_map.mp hp with ⟨jj, hjj, hjid⟩
        have hm2 := pendingJobs_mem hjj
        exact ⟨jj, hm2.1, hjid, hm2.2.2.2⟩
      · rcases List.mem_map.mp hf with ⟨jj, hjj, hjid⟩
        have hm2 := failedJobs_mem hjj
        exact ⟨jj, hm2.1, hjid, hm2.2.2.2⟩
    rcases hex with ⟨jj, hjjmem, hjjid, hjjlt⟩
    intro j hj
    rcases List.mem_map.mp hj with ⟨j0, hj0, rfl⟩
    by_cases h0 : j0.id = id
    · have he : j0 = jj :=
        List.inj_on_of_nodup_map ih.1 hj0 hjjmem (by rw [h0, hjjid])
      rw [if_pos h0]
      show j0.attempts + 1 ≤ j0.maxAttempts
      rw [he]
      omega
    · rw [if_neg h0]
      exact ih.2 j0 hj0
  | markCompleted s id now hr ih =>
    refine ⟨by rw [mapId_markCompleted]; exact ih.1, ?_⟩
    intro j hj
    rcases List.mem_map.mp hj with ⟨j0, hj0, rfl⟩
    by_cases h0 : j0.id = id
    · rw [if_pos h0]
      exact ih.2 j0 hj0
    · rw [if_neg h0]
      exact ih.2 j0 hj0
  | markFailed s id msg hr ih =>
    refine ⟨by rw [mapId_markFailed]; exact ih.1, ?_⟩
    intro j hj
    rcases List.mem_map.mp hj with ⟨j0, hj0, rfl⟩
    by_cases h0 : j0.id = id
    · rw [if_pos h0]
      exact ih.2 j0 hj0
    · rw [if_neg h0]
      exact ih.2 j0 hj0
  | del s id hr ih =>
    refine ⟨ih.1.sublist ((List.filter_sublist _).map SyncJob.id), ?_⟩
    intro j hj
    exact ih.2 j (List.mem_of_mem_filter hj)
  | deleteOld s now hrs hr ih =>
    refine ⟨ih.1.sublist ((List.filter_sublist _).map SyncJob.id), ?_⟩
    intro j hj
    exact ih.2 j (List.mem_of_mem_filter hj)

/-- C2: in every table state reachable by poll cycles — MarkProcessing is run
exactly once per job id selected by GetPendingJobs or GetFailedJobs, each of
which requires attempts < max_attempts — every job keeps
attempts <= max_attempts, and a job whose attempts has reached max_attempts
is selected by neither GetPendingJobs nor GetFailedJobs. -/
theorem syncJob_retry_bounded (s : List SyncJob) (h : Reach s) :
    (∀ j ∈ s, j.attempts ≤ j.maxAttempts) ∧
    (∀ j : SyncJob, j.maxAttempts ≤ j.attempts →
      (∀ (t : Int) (n : Nat), j ∉ repository.GetPendingJobs s t n) ∧
      (∀ c : Nat, j ∉ repository.GetFailedJobs s c)) := by
  refine ⟨(reach_invariant h).2, ?_⟩
  intro j hj
  constructor
  · intro t n hmem
    have := (pendingJobs_mem hmem).2.2.2
    omega
  · intro c hmem
    have := (failedJobs_mem hmem).2.2.2
    omega

/-- C2 witness: the theorem at the reachable one-job state created from the
empty table. -/
theorem syncJob_retry_bounded_witness : c2job.attempts ≤ c2job.maxAttempts :=
  (syncJob_retry_bounded (repository.Create [] c2job)
    (Reach.create [] c2job Reach.init (by simp) rfl (by decide))).1 c2job
    (by simp [repository.Create])

/-! ## C7 -/

lemma connUpdate_mapId (table : List Connection) (upd : Connection) :
    (ConnUpdate table upd).map Connection.id = table.map Connection.id := by
  unfold ConnUpdate
  rw [List.map_map]
  exact List.map_congr_left fun x _ => by by_cases h : x.id = upd.id <;> simp [h]

lemma connUpdate_mapKey (table : List Connection) (upd e : Connection)
    (hids : (table.map Connection.id).Nodup) (he : e ∈ table) (hid : upd.id = e.id)
    (hkey : connKey upd = connKey e) :
    (ConnUpdate table upd).map connKey = table.map connKey := by
  unfold ConnUpdate
  rw [List.map_map]
  apply List.map_congr_left
  intro x hx
  show connKey (if x.id = upd.id then upd else x) = connKey x
  by_cases h : x.id = upd.id
  · have hxe : x = e := List.inj_on_of_nodup_map hids hx he (by rw [h, hid])
    rw [if_pos h, hkey, hxe]
  · rw [if_neg h]

lemma find_none_key_not_mem (table : List Connection) (p s : String)
    (h : GetByPlatformAndShopID table p s = none) :
    (p, s) ∉ table.map connKey := by
  intro hmem
  rcases List.mem_map.mp hmem with ⟨c, hc, hk⟩
  have hnp := List.find?_eq_none.mp h c hc
  apply hnp
  have hp : c.platform = p := congrArg Prod.fst hk
  have hs : c.shopId = s := congrArg Prod.snd hk
  exact decide_eq_true ⟨hp, hs⟩

/-- C7: each OAuth callback keeps at most one connection per
(platform, shop_id): when a connection for the pair exists, its tokens,
expiry and IsActive are updated in place (same id, no new row); otherwise
exactly one new connection is created — so tables with pairwise-distinct
(platform, shop_id) keys keep that uniqueness through both the Shopee and
TikTok callbacks. -/
theorem connection_unique_per_shop (table : List Connection) (tok : ShopeeTokenResp)
    (tok2 : TikTokTokenResp) (shopName : String) (newId newId2 : Nat)
    (hkeys : (table.map connKey).Nodup) (hids : (table.map Connection.id).Nodup)
    (h1 : newId ∉ table.map Connection.id) (h2 : newId2 ∉ table.map Connection.id) :
    (((HandleShopeeCallback table tok shopName newId).1.map connKey).Nodup ∧
     ((HandleShopeeCallback table tok shopName newId).1.map Connection.id).Nodup ∧
     (HandleShopeeCallback table tok shopName newId).2.isActive = true ∧
     (HandleShopeeCallback table tok shopName newId).2.accessToken = tok.accessToken ∧
     (HandleShopeeCallback table tok shopName newId).2.refreshToken = tok.refreshToken ∧
     (HandleShopeeCallback table tok shopName newId).2.tokenExpiresAt = some tok.expiresAt ∧
     (∀ e, GetByPlatformAndShopID table "shopee" tok.shopId = some e →
       (HandleShopeeCallback table tok shopName newId).1.length = table.length ∧
       (HandleShopeeCallback table tok shopName newId).2.id = e.id) ∧
     (GetByPlatformAndShopID table "shopee" tok.shopId = none →
       (HandleShopeeCallback table tok shopName newId).1.length = table.length + 1)) ∧
    (((HandleTikTokCallback table tok2 newId2).1.map connKey).Nodup ∧
     ((HandleTikTokCallback table tok2 newId2).1.map Connection.id).Nodup ∧
     (HandleTikTokCallback table tok2 newId2).2.isActive = true ∧
     (HandleTikTokCallback table tok2 newId2).2.accessToken = tok2.accessToken ∧
     (HandleTikTokCallback table tok2 newId2).2.refreshToken = tok2.refreshToken ∧
     (HandleTikTokCallback table tok2 newId2).2.tokenExpiresAt = some tok2.expiresAt ∧
     (∀ e, GetByPlatformAndShopID table "tiktok" tok2.shopId = some e →
       (HandleTikTokCallback table tok2 newId2).1.length = table.length ∧
       (HandleTikTokCallback table tok2 newId2).2.id = e.id) ∧
     (GetByPlatformAndShopID table "tiktok" tok2.shopId = none →
       (HandleTikTokCallback table tok2 newId2).1.length = table.length + 1)) := by
  constructor
  · cases heq : GetByPlatformAndShopID table "shopee" tok.shopId with
    | none =>
      have hred : HandleShopeeCallback table tok shopName newId =
          (ConnCreate table
            { id := newId, platform := "shopee", shopId := tok.shopId, shopName := shopName,
              accessToken := tok.accessToken, refreshToken := tok.refreshToken,
              tokenExpiresAt := some tok.expiresAt, isActive := true, settings := "",
              createdAt := 0, updatedAt := 0 },
           { id := newId, platform := "shopee", shopId := tok.shopId, shopName := shopName,
              accessToken := tok.accessToken, refreshToken := tok.refreshToken,
              tokenExpiresAt := some tok.expiresAt, isActive := true, settings := "",
              createdAt := 0, updatedAt := 0 }) := by
        unfold HandleShopeeCallback
        rw [heq]
      rw [hred]
      refine ⟨?_, ?_, rfl, rfl, rfl, rfl, ?_, ?_⟩
      · unfold ConnCreate
        rw [List.map_append]
        exact List.Nodup.append hkeys (List.nodup_singleton _)
          (by simpa [List.disjoint_singleton, connKey] using
            find_none_key_not_mem table "shopee" tok.shopId heq)
      · unfold ConnCreate
        rw [List.map_append]
        exact List.Nodup.append hids (List.nodup_singleton _)
          (by simpa [List.disjoint_singleton] using h1)
      · intro e' he'
        exact Option.noConfusion he'
      · intro _
        simp [ConnCreate]
    | some e =>
      have hmem := List.mem_of_find?_eq_some heq
      have hred : HandleShopeeCallback table tok shopName newId =
          (ConnUpdate table
            { e with accessToken := tok.accessToken, refreshToken := tok.refreshToken,
                     tokenExpiresAt := some tok.expiresAt, isActive := true },
           { e with accessToken := tok.accessToken, refreshToken := tok.refreshToken,
                    tokenExpiresAt := some tok.expiresAt, isActive := true }) := by
        unfold HandleShopeeCallback
        rw [heq]
      rw [hred]
      refine ⟨?_, ?_, rfl, rfl, rfl, rfl, ?_, ?_⟩
      · have hkm := connUpdate_mapKey table
          { e with accessToken := tok.accessToken, refreshToken := tok.refreshToken,
                   tokenExpiresAt := some tok.expiresAt, isActive := true }
          e hids hmem rfl rfl
        rw [hkm]
        exact hkeys
      · rw [connUpdate_mapId]
        exact hids
      · intro e' he'
        rcases Option.some.inj he' with rfl
        exact ⟨by simp [ConnUpdate], rfl⟩
      · intro hno
        exact Option.noConfusion hno
  · cases heq : GetByPlatformAndShopID table "tiktok" tok2.shopId with
    | none =>
      have hred : HandleTikTokCallback table tok2 newId2 =
          (ConnCreate table
            { id := newId2, platform := "tiktok", shopId := tok2.shopId,
              shopName := tok2.shopName, accessToken := tok2.accessToken,
              refreshToken := tok2.refreshToken, tokenExpiresAt := some tok2.expiresAt,
              isActive := true, settings := "", createdAt := 0, updatedAt := 0 },
           { id := newId2, platform := "tiktok", shopId := tok2.shopId,
              shopName := tok2.shopName, accessToken := tok2.accessToken,
              refreshToken := tok2.refreshToken, tokenExpiresAt := some tok2.expiresAt,
              isActive := true, settings := "", createdAt := 0, updatedAt := 0 }) := by
        unfold HandleTikTokCallback
        rw [heq]
      rw [hred]
      refine ⟨?_, ?_, rfl, rfl, rfl, rfl, ?_, ?_⟩
      · unfold ConnCreate
        rw [List.map_append]
        exact List.Nodup.append hkeys (List.nodup_singleton _)
          (by simpa [List.disjoint_singleton, connKey] using
            find_none_key_not_mem table "tiktok" tok2.shopId heq)
      · unfold ConnCreate
        rw [List.map_append]
        exact List.Nodup.append hids (List.nodup_singleton _)
          (by simpa [List.disjoint_singleton] using h2)
      · intro e' he'
        exact Option.noConfusion he'
      · intro _
        simp [ConnCreate]
    | some e =>
      have hmem := List.mem_of_find?_eq_some heq
      have hred : HandleTikTokCallback table tok2 newId2 =
          (ConnUpdate table
            { e with accessToken := tok2.accessToken, refreshToken := tok2.refreshToken,
                     tokenExpiresAt := some tok2.expiresAt, shopName := tok2.shopName,
                     isActive := true },
           { e with accessToken := tok2.accessToken, refreshToken := tok2.refreshToken,
                    tokenExpiresAt := some tok2.expiresAt, shopName := tok2.shopName,
                    isActive := true }) := by
        unfold HandleTikTokCallback
        rw [heq]
      rw [hred]
      refine ⟨?_, ?_, rfl, rfl, rfl, rfl, ?_, ?_⟩
      · have hkm := connUpdate_mapKey table
          { e with accessToken := tok2.accessToken, refreshToken := tok2.refreshToken,
                   tokenExpiresAt := some tok2.expiresAt, shopName := tok2.shopName,
                   isActive := true }
          e hids hmem rfl rfl
        rw [hkm]
        exact hkeys
      · rw [connUpdate_mapId]
        exact hids
      · intro e' he'
        rcases Option.some.inj he' with rfl
        exact ⟨by simp [ConnUpdate], rfl⟩
      · intro hno
        exact Option.noConfusion hno

/-- C7 witness: the theorem at the empty connection table with concrete token
responses. -/
theorem connection_unique_per_shop_witness :
    (HandleShopeeCallback [] c7ShopeeTok "Shopee Shop" 1).2.isActive = true :=
  ((connection_unique_per_shop [] c7ShopeeTok c7TikTokTok "Shopee Shop" 1 2
    (by simp) (by simp) (by simp) (by simp)).1).2.2.1
